import Mathlib

/-!
Verification of the Anti-Tarnish Jewellery Store backend (src/main.py,
src/schemas.py) against its natural-language specification.

Shallow embedding conventions:
- Python floats are modelled as rationals (ℚ); all monetary values in the
  program (59.0, 6.0, 50.0, ...) and their products with integer quantities
  are exact in both models.
- Python `round(x, 2)` (round-half-to-even on the scaled value) is modelled
  by `pyRound2`.
- The Mongo-backed document store is an external collaborator; it is
  modelled by the `Gateway` structure whose fields give the outcome of each
  kind of database access (`none` standing for a raised exception).
- A raw product document is modelled by `ProductDoc`; a field of value
  `none` stands for a missing key in the Mongo document (the endpoints read
  fields with `.get(...)` defaults).  The remaining Product fields
  (description, in_stock, stock_qty, rating, anti_tarnish, color_tone,
  highlights) are never read by any endpoint logic and are omitted.
- Fallible endpoints return `Except`: `Except.error` models an HTTP error
  response or an uncaught Python exception, as documented at each use.
-/

instance {ε : Type u} {α : Type v} [DecidableEq ε] [DecidableEq α] :
    DecidableEq (Except ε α) := fun x y =>
  match x, y with
  | .ok a, .ok b =>
      if h : a = b then .isTrue (by rw [h])
      else .isFalse (by intro hh; cases hh; exact h rfl)
  | .error e, .error f =>
      if h : e = f then .isTrue (by rw [h])
      else .isFalse (by intro hh; cases hh; exact h rfl)
  | .ok _, .error _ => .isFalse (by intro hh; cases hh)
  | .error _, .ok _ => .isFalse (by intro hh; cases hh)

namespace Jewellery

/-- Python `round(q, 2)`, the integer numerator: round half to even on
`q * 100`. -/
def pyRound2Int (q : ℚ) : ℤ :=
  if q * 100 - ⌊q * 100⌋ < 1/2 then ⌊q * 100⌋
  else if 1/2 < q * 100 - ⌊q * 100⌋ then ⌊q * 100⌋ + 1
  else if ⌊q * 100⌋ % 2 = 0 then ⌊q * 100⌋ else ⌊q * 100⌋ + 1

/-- Python `round(q, 2)` on our rational model of floats. -/
def pyRound2 (q : ℚ) : ℚ := (pyRound2Int q : ℚ) / 100

/-- Python list slicing `l[:n]`: for `n ≥ 0` take the first `n` elements,
for `n < 0` stop `|n|` before the end (clamped at 0). -/
def pySlice (n : ℤ) (l : List α) : List α :=
  if 0 ≤ n then l.take n.toNat else l.take ((l.length : ℤ) + n).toNat

/-- Python truthiness of an optional string (`if category:`): `None` and
the empty string are falsy. -/
def pyTruthy (c : Option String) : Option String :=
  match c with
  | some s => if s = "" then none else some s
  | none => none

/-- A raw document of the "product" collection, after `serialize_doc`
(Mongo `_id` exposed as the string field `id`).  `none` = key missing. -/
structure ProductDoc where
  id : String
  title : Option String := none
  price : Option ℚ := none
  category : Option String := none
  images : Option (List String) := none
deriving DecidableEq

/-- The document store, an external collaborator (plus the repository's
thin `database.py` wrapper, which is not part of the given sources).
`query`: backing documents visible to `get_documents("product", ...)`,
`none` when that call raises.
`collection`: the documents of `db["product"]` for direct `find`
/`find_one` access, `none` when any direct access raises.
`createOrder`: the id returned by `create_document("order", ...)`, `none`
when persisting raises. -/
structure Gateway where
  query : Option (List ProductDoc)
  collection : Option (List ProductDoc)
  createOrder : Option String
deriving DecidableEq

/-- `serialize_doc` (src/main.py lines 22-27): moves `_id` into `id`.  Our
documents already carry `id`, so this is the identity map. -/
def serialize_doc (d : ProductDoc) : ProductDoc := d

/-- The four seeded fallback products of src/main.py lines 43-96, with the
fields the endpoints read, and the synthetic ids `seed-0` .. `seed-3`. -/
def seedCatalogue : List ProductDoc :=
  [ { id := "seed-0", title := some "Luna Halo Ring", price := some 59,
      category := some "Rings",
      images := some ["https://images.unsplash.com/photo-1520962918287-7448c2878f65?q=80&w=1200&auto=format&fit=crop"] },
    { id := "seed-1", title := some "Aurora Tennis Bracelet", price := some 89,
      category := some "Bracelets",
      images := some ["https://images.unsplash.com/photo-1599643477877-530eb83abc8e?q=80&w=1200&auto=format&fit=crop"] },
    { id := "seed-2", title := some "Celeste Pendant Necklace", price := some 72,
      category := some "Necklaces",
      images := some ["https://images.unsplash.com/photo-1617038260897-1039e0c1f16f?q=80&w=1200&auto=format&fit=crop"] },
    { id := "seed-3", title := some "Nova Stud Earrings", price := some 45,
      category := some "Earrings",
      images := some ["https://images.unsplash.com/photo-1616400619175-5beda3a97703?q=80&w=1200&auto=format&fit=crop"] } ]

/-- Modelled from the spec: `get_documents(collection, filter, limit)` of
the absent `database.py`, per spec section 6 ("query(collection, filter,
limit) -> sequence of records") and section 4.1 ("queries the gateway for
collection product filtered by category if given, capped at limit").
Raises exactly when the gateway is down (`Gateway.query = none`). -/
def get_documents (gw : Gateway) (filt : Option String) (limit : ℤ) :
    Except Unit (List ProductDoc) :=
  match gw.query with
  | none => .error ()
  | some ds =>
      let matched :=
        match filt with
        | none => ds
        | some c => ds.filter (fun d => d.category == some c)
      .ok (matched.take limit.toNat)

/-- The category filter applied to the seeded fallback catalogue
(src/main.py lines 97-98). -/
def seedsFiltered (category : Option String) : List ProductDoc :=
  match pyTruthy category with
  | some c => seedCatalogue.filter (fun s => s.category == some c)
  | none => seedCatalogue

/-- `list_products` (src/main.py lines 35-99): primary gateway query with
the category filter, and on any exception the seeded fallback catalogue,
filtered by category and sliced to `limit`. -/
def list_products (gw : Gateway) (category : Option String := none)
    (limit : ℤ := 50) : List ProductDoc :=
  match get_documents gw (pyTruthy category) limit with
  | .ok items => items.map serialize_doc
  | .error _ => pySlice limit (seedsFiltered category)

/-- A hexadecimal character, as accepted by `bson.ObjectId`. -/
def isHexChar (c : Char) : Bool :=
  c.isDigit || ('a' ≤ c && c ≤ 'f') || ('A' ≤ c && c ≤ 'F')

/-- Whether `ObjectId(s)` succeeds for a 24-character string `s`. -/
def isHexStr (s : String) : Bool := s.data.all isHexChar

/-- `get_product` (src/main.py lines 102-118).  For a 24-character id the
direct lookup is attempted inside `try`: an invalid hex id, a raising
gateway, and even the 404 `HTTPException` raised on a missing document are
all swallowed by `except Exception: pass`, falling through to a search of
`list_products()`.  `Except.error s` models an HTTP 404 with detail `s`. -/
def get_product (gw : Gateway) (product_id : String) :
    Except String ProductDoc :=
  let dbHit : Option ProductDoc :=
    if product_id.length = 24 then
      if isHexStr product_id then
        match gw.collection with
        | some ds => ds.find? (fun d => d.id == product_id)
        | none => none
      else none
    else none
  match dbHit with
  | some d => .ok (serialize_doc d)
  | none =>
      match (list_products gw).find? (fun p => p.id == product_id) with
      | some p => .ok p
      | none => .error "Product not found"

/-- Two consecutive calls of `get_product` with the same id against the
same gateway state (the handler never mutates any state). -/
def get_product_twice (gw : Gateway) (product_id : String) :
    Except String ProductDoc × Except String ProductDoc :=
  (get_product gw product_id, get_product gw product_id)

/-- Inbound checkout payload item (src/main.py lines 121-123): a product
id and an integer quantity, with no declared numeric constraint. -/
structure CartItem where
  product_id : String
  quantity : ℤ
deriving DecidableEq

/-- Inbound checkout payload (src/main.py lines 126-136). -/
structure CheckoutRequest where
  items : List CartItem
  customer_name : String
  customer_email : String
  address_line1 : String
  address_line2 : Option String := none
  city : String
  state : String
  postal_code : String
  country : String := "US"
  notes : Option String := none
deriving DecidableEq

/-- Pydantic validation of the inbound checkout payload.  `CartItem` and
`CheckoutRequest` declare field types only — no `ge` bound on `quantity`
and no numeric constraint anywhere — so every typed payload passes; a 422
can only arise from shape/type mismatches, which are outside a typed
model. -/
def checkoutRequestValid (_p : CheckoutRequest) : Bool := true

/-- An order line as persisted in an Order (src/schemas.py lines 29-34). -/
structure OrderItem where
  product_id : String
  title : String
  price : ℚ
  quantity : ℤ
  image : Option String
deriving DecidableEq

/-- An Order record (src/schemas.py lines 37-54). -/
structure Order where
  items : List OrderItem
  subtotal : ℚ
  shipping : ℚ
  total : ℚ
  customer_name : String
  customer_email : String
  address_line1 : String
  address_line2 : Option String
  city : String
  state : String
  postal_code : String
  country : String
  notes : Option String
deriving DecidableEq

/-- Pydantic validation of an `Order` at construction (src/schemas.py):
every item needs `quantity ≥ 1` (`Field(..., ge=1)`), and `subtotal`,
`shipping`, `total` need to be `≥ 0` (`Field(..., ge=0)`).  Image-URL
well-formedness is not modelled (image strings are opaque here). -/
def orderValid (o : Order) : Bool :=
  o.items.all (fun it => decide (1 ≤ it.quantity)) &&
    decide (0 ≤ o.subtotal) && decide (0 ≤ o.shipping) && decide (0 ≤ o.total)

/-- Ways a checkout request can fail with an uncaught exception
(an HTTP 500, never a receipt). -/
inductive Err where
  /-- `bson.errors.InvalidId` from `ObjectId(...)` at src/main.py line
  142, outside every `try` block. -/
  | invalidId
  /-- `IndexError` from `.get("images", [None])[0]` at src/main.py line
  171 when a resolved record carries an explicitly empty image list. -/
  | indexError
  /-- Pydantic `ValidationError` from `Order(...)` at src/main.py line
  185. -/
  | validationError
deriving DecidableEq

/-- The receipt returned by a completed checkout (src/main.py line 206). -/
structure Receipt where
  order_id : Option String
  subtotal : ℚ
  shipping : ℚ
  total : ℚ
deriving DecidableEq

/-- The id list of src/main.py line 142:
`[ObjectId(i.product_id) for i in payload.items if len(i.product_id) == 24]`.
The first 24-character id that is not valid hex raises `InvalidId`. -/
def parseIds : List CartItem → Except Err (List String)
  | [] => .ok []
  | ci :: rest =>
      if ci.product_id.length = 24 then
        if isHexStr ci.product_id then
          match parseIds rest with
          | .ok ids => .ok (ci.product_id :: ids)
          | .error e => .error e
        else .error .invalidId
      else parseIds rest

/-- The value `parseIds` returns when it succeeds: the 24-character hex
ids of the payload, in order. -/
def parseIdsHex (items : List CartItem) : List String :=
  items.filterMap (fun ci =>
    if ci.product_id.length = 24 then
      if isHexStr ci.product_id then some ci.product_id else none
    else none)

/-- The `prod_map` of src/main.py lines 143-150: when `ids` is nonempty,
a batched `find` on `db["product"]`; any exception is swallowed, leaving
the map empty. -/
def prodMapOf (gw : Gateway) (ids : List String) : List ProductDoc :=
  if ids = [] then []
  else
    match gw.collection with
    | some ds => ds.filter (fun d => ids.contains d.id)
    | none => []

/-- Python dict lookup on `prod_map` keyed by `str(p["_id"])`: insertion
order with the last binding winning. -/
def prodGet (pm : List ProductDoc) (pid : String) : Option ProductDoc :=
  pm.foldl (fun acc d => if d.id == pid then some d else acc) none

/-- `(doc.get("images") or [None])[0]` (src/main.py line 160): `None` on a
missing key or an empty list, else the first image. -/
def listOrHeadNone (imgs : Option (List String)) : Option String :=
  match imgs with
  | none => none
  | some [] => none
  | some (u :: _) => some u

/-- `float((seed or {}).get("price", 50.0))` (src/main.py line 169). -/
def seedPrice (seed : Option ProductDoc) : ℚ :=
  match seed with
  | none => 50
  | some s => s.price.getD 50

/-- `(seed or {}).get("title", "Jewellery Piece")` (src/main.py line
170). -/
def seedTitle (seed : Option ProductDoc) : String :=
  match seed with
  | none => "Jewellery Piece"
  | some s => s.title.getD "Jewellery Piece"

/-- `(seed or {}).get("images", [None])[0]` (src/main.py line 171): the
default `[None]` applies only when `seed` is `None`/`{}` or the key is
missing; a present-but-empty image list makes `[0]` raise `IndexError`. -/
def seedImage (seed : Option ProductDoc) : Except Err (Option String) :=
  match seed with
  | none => .ok none
  | some s =>
      match s.images with
      | none => .ok none
      | some [] => .error .indexError
      | some (u :: _) => .ok (some u)

/-- The `seed` variable of src/main.py lines 163-168: the first record of
`list_products()` whose id matches, if any. -/
def seedLookup (gw : Gateway) (pid : String) : Option ProductDoc :=
  (list_products gw).find? (fun p => p.id == pid)

/-- Per-item price/title/image resolution of src/main.py lines 154-180:
the batch-resolved `prod_map` record if present, else a scan of
`list_products()` (note: the live gateway listing, not the fixed seed
catalogue), else hardcoded defaults. -/
def resolveItem (gw : Gateway) (pm : List ProductDoc) (ci : CartItem) :
    Except Err OrderItem :=
  match prodGet pm ci.product_id with
  | some base =>
      .ok { product_id := ci.product_id, title := base.title.getD "Item",
            price := base.price.getD 0, quantity := ci.quantity,
            image := listOrHeadNone base.images }
  | none =>
      match seedImage (seedLookup gw ci.product_id) with
      | .error e => .error e
      | .ok img =>
          .ok { product_id := ci.product_id,
                title := seedTitle (seedLookup gw ci.product_id),
                price := seedPrice (seedLookup gw ci.product_id),
                quantity := ci.quantity, image := img }

/-- The pricing loop of src/main.py lines 152-180, returning the resolved
order items in payload order (the source also accumulates `subtotal` in
the same loop; it equals `lineSum` of the result). -/
def priceItems (gw : Gateway) (pm : List ProductDoc) :
    List CartItem → Except Err (List OrderItem)
  | [] => .ok []
  | ci :: rest =>
      match resolveItem gw pm ci with
      | .error e => .error e
      | .ok it =>
          match priceItems gw pm rest with
          | .error e => .error e
          | .ok its => .ok (it :: its)

/-- The accumulated `subtotal` of src/main.py lines 153, 172-173: the sum
of `price * quantity` over the resolved items. -/
def lineSum (its : List OrderItem) : ℚ :=
  (its.map (fun it => it.price * (it.quantity : ℚ))).sum

/-- `shipping = 0 if subtotal >= 100 else 6.0` (src/main.py line 182),
as a function of the resolved items. -/
def orderShipping (its : List OrderItem) : ℚ :=
  if 100 ≤ lineSum its then 0 else 6

/-- The `Order(...)` constructed at src/main.py lines 185-199: resolved
items, the rounded subtotal, the flat shipping fee, the rounded total,
and the customer/address passthrough fields. -/
def orderOf (p : CheckoutRequest) (its : List OrderItem) : Order :=
  { items := its, subtotal := pyRound2 (lineSum its),
    shipping := orderShipping its,
    total := pyRound2 (lineSum its + orderShipping its),
    customer_name := p.customer_name, customer_email := p.customer_email,
    address_line1 := p.address_line1, address_line2 := p.address_line2,
    city := p.city, state := p.state, postal_code := p.postal_code,
    country := p.country, notes := p.notes }

/-- `checkout` (src/main.py lines 139-206).  Parses the 24-character ids
(`InvalidId` propagates), batch-resolves them (errors swallowed), prices
each item, computes `shipping`/`total`, constructs and validates the
`Order`, persists it best-effort, and returns the receipt. -/
def checkout (gw : Gateway) (p : CheckoutRequest) : Except Err Receipt :=
  match parseIds p.items with
  | .error e => .error e
  | .ok ids =>
      match priceItems gw (prodMapOf gw ids) p.items with
      | .error e => .error e
      | .ok its =>
          if orderValid (orderOf p its) then
            .ok { order_id := gw.createOrder,
                  subtotal := (orderOf p its).subtotal,
                  shipping := (orderOf p its).shipping,
                  total := (orderOf p its).total }
          else .error .validationError

/-- Per-item resolution as claim C3 words it: (a) the batch-resolved
gateway record, else (b) the product with that id in the FIXED fallback
seeded catalogue, else (c) the hardcoded default (price 50.0, title
"Jewellery Piece", no image).  Written from the claim for comparison with
`resolveItem`. -/
def resolveClaimed (pm : List ProductDoc) (ci : CartItem) :
    Except Err OrderItem :=
  match prodGet pm ci.product_id with
  | some base =>
      .ok { product_id := ci.product_id, title := base.title.getD "Item",
            price := base.price.getD 0, quantity := ci.quantity,
            image := listOrHeadNone base.images }
  | none =>
      match seedCatalogue.find? (fun p => p.id == ci.product_id) with
      | some s =>
          match s.images with
          | some [] => .error .indexError
          | some (u :: _) =>
              .ok { product_id := ci.product_id,
                    title := s.title.getD "Jewellery Piece",
                    price := s.price.getD 50, quantity := ci.quantity,
                    image := some u }
          | none =>
              .ok { product_id := ci.product_id,
                    title := s.title.getD "Jewellery Piece",
                    price := s.price.getD 50, quantity := ci.quantity,
                    image := none }
      | none =>
          .ok { product_id := ci.product_id, title := "Jewellery Piece",
                price := 50, quantity := ci.quantity, image := none }

/-- Per-item resolution as the amended claim C3 words it: (a) the
batch-resolved gateway record, else (b) the record with that id in the
output of `list_products` with no filter (which is the fixed seeded
catalogue exactly when the gateway listing fails), else (c) the hardcoded
default. -/
def resolveAmendedSpec (gw : Gateway) (pm : List ProductDoc)
    (ci : CartItem) : Except Err OrderItem :=
  match prodGet pm ci.product_id with
  | some base =>
      .ok { product_id := ci.product_id, title := base.title.getD "Item",
            price := base.price.getD 0, quantity := ci.quantity,
            image := listOrHeadNone base.images }
  | none =>
      match seedLookup gw ci.product_id with
      | some s =>
          match s.images with
          | some [] => .error .indexError
          | some (u :: _) =>
              .ok { product_id := ci.product_id,
                    title := s.title.getD "Jewellery Piece",
                    price := s.price.getD 50, quantity := ci.quantity,
                    image := some u }
          | none =>
              .ok { product_id := ci.product_id,
                    title := s.title.getD "Jewellery Piece",
                    price := s.price.getD 50, quantity := ci.quantity,
                    image := none }
      | none =>
          .ok { product_id := ci.product_id, title := "Jewellery Piece",
                price := 50, quantity := ci.quantity, image := none }

/-- The hardcoded default pricing of an unresolvable checkout item (claim
C2's words, matching src/main.py lines 169-171 with no seed found): price
50.0, title "Jewellery Piece", no image. -/
def defaultItem (ci : CartItem) : OrderItem :=
  { product_id := ci.product_id, title := "Jewellery Piece", price := 50,
    quantity := ci.quantity, image := none }

/-- All items of a payload priced at the hardcoded default. -/
def defaultItems (items : List CartItem) : List OrderItem :=
  items.map defaultItem

/-! ## Helper lemmas -/

lemma length_take_toNat_le {α : Type u} (l : List α) (n : ℤ) (h : 0 ≤ n) :
    (((l.take n.toNat).length : ℤ)) ≤ n := by
  have h1 : (l.take n.toNat).length ≤ n.toNat := by
    simp [List.length_take]
  omega

lemma pySlice_nil {α : Type u} (n : ℤ) : pySlice n ([] : List α) = [] := by
  unfold pySlice
  split <;> simp

lemma pyRound2Int_div_100 (n : ℤ) : pyRound2Int ((n : ℚ) / 100) = n := by
  have hs : ((n : ℚ) / 100) * 100 = (n : ℚ) := div_mul_cancel₀ _ (by norm_num)
  unfold pyRound2Int
  rw [hs, Int.floor_intCast, sub_self]
  norm_num

lemma pyRound2_of_intQuot (n : ℤ) : pyRound2 ((n : ℚ) / 100) = (n : ℚ) / 100 := by
  unfold pyRound2
  rw [pyRound2Int_div_100]

lemma pyRound2_idem (q : ℚ) : pyRound2 (pyRound2 q) = pyRound2 q :=
  pyRound2_of_intQuot (pyRound2Int q)

lemma pyRound2Int_add_six (x : ℚ) :
    pyRound2Int (x + 6) = pyRound2Int x + 600 := by
  unfold pyRound2Int
  have h1 : (x + 6) * 100 = x * 100 + ((600 : ℤ) : ℚ) := by push_cast; ring
  rw [h1, Int.floor_add_int]
  have h2 : x * 100 + ((600 : ℤ) : ℚ) - ((⌊x * 100⌋ + 600 : ℤ) : ℚ) =
      x * 100 - ((⌊x * 100⌋ : ℤ) : ℚ) := by push_cast; ring
  rw [h2]
  have h3 : (⌊x * 100⌋ + 600) % 2 = ⌊x * 100⌋ % 2 := by omega
  rw [h3]
  split_ifs <;> omega

lemma pyRound2_add_six (x : ℚ) : pyRound2 (x + 6) = pyRound2 x + 6 := by
  unfold pyRound2
  rw [pyRound2Int_add_six]
  push_cast
  ring

lemma pyRound2_pre_rounded (s ship : ℚ) (h : ship = 0 ∨ ship = 6) :
    pyRound2 (s + ship) = pyRound2 (pyRound2 s + ship) := by
  rcases h with h | h <;> subst h
  · rw [add_zero, add_zero, pyRound2_idem]
  · rw [pyRound2_add_six, pyRound2_add_six, pyRound2_idem]

lemma pyRound2_nonneg (x : ℚ) (hx : 0 ≤ x) : 0 ≤ pyRound2 x := by
  unfold pyRound2
  have hfl : 0 ≤ ⌊x * 100⌋ := Int.floor_nonneg.mpr (by positivity)
  refine div_nonneg ?_ (by norm_num)
  suffices h : 0 ≤ pyRound2Int x by exact_mod_cast h
  unfold pyRound2Int
  split_ifs <;> omega

/-! ## Claim theorems: catalogue service -/

/-- C9: `getProduct` is idempotent and deterministic — two calls with the
same product id against the same unchanged gateway state return the same
result (the handler is a pure function of the gateway state and the id,
mutating nothing). -/
theorem c9_get_product_deterministic (gw : Gateway) (pid : String) :
    (get_product_twice gw pid).1 = (get_product_twice gw pid).2 := rfl

/-- C4: for a 24-character hex product id whose direct gateway lookup
returns no document and which matches no id in the fallback-path search
(`list_products()`), `get_product` answers HTTP 404 with detail
"Product not found". -/
theorem c4_get_product_404 (gw : Gateway) (ds : List ProductDoc)
    (pid : String) (hlen : pid.length = 24) (hhex : isHexStr pid = true)
    (hcol : gw.collection = some ds)
    (hfind : ds.find? (fun d => d.id == pid) = none)
    (hseed : (list_products gw).find? (fun p => p.id == pid) = none) :
    get_product gw pid = .error "Product not found" := by
  unfold get_product
  simp [hlen, hhex, hcol, hfind, hseed]

theorem c4_witness :
    get_product ⟨some [], some [], none⟩ "aaaaaaaaaaaaaaaaaaaaaaaa" =
      .error "Product not found" :=
  c4_get_product_404 ⟨some [], some [], none⟩ [] "aaaaaaaaaaaaaaaaaaaaaaaa"
    (by decide) (by decide) rfl rfl (by decide)

/-- C7: for every limit ≥ 0 the sequence returned by `list_products` has
length at most `limit`, on the primary path (the gateway query, modelled
from the spec, caps at `limit`) and on the fallback path (the Python slice
`sample[:limit]`). -/
theorem c7_limit_bound (gw : Gateway) (category : Option String)
    (limit : ℤ) (h : 0 ≤ limit) :
    ((list_products gw category limit).length : ℤ) ≤ limit := by
  unfold list_products
  cases hq : get_documents gw (pyTruthy category) limit with
  | ok items =>
      unfold get_documents at hq
      cases hq2 : gw.query with
      | none => rw [hq2] at hq; cases hq
      | some ds =>
          rw [hq2] at hq
          simp only [Except.ok.injEq] at hq
          subst hq
          simpa [serialize_doc] using
            length_take_toNat_le
              (match pyTruthy category with
               | none => ds
               | some c => ds.filter (fun d => d.category == some c))
              limit h
  | error e =>
      unfold pySlice
      rw [if_pos h]
      exact length_take_toNat_le _ limit h

theorem c7_witness :
    (0:ℤ) ≤ 2 ∧ ((list_products ⟨none, none, none⟩ none 2).length : ℤ) ≤ 2 :=
  ⟨by decide, c7_limit_bound ⟨none, none, none⟩ none 2 (by decide)⟩

/-- C8: `list_products` uses the fallback seeded catalogue exactly when
the gateway query raises: a successful query is passed through unchanged
(in particular a successful empty query yields an empty response, never
the fallback), and a raising query yields the seeded catalogue filtered
by category and sliced to the limit. -/
theorem c8_fallback_on_exception (gw : Gateway) (category : Option String)
    (limit : ℤ) :
    (∀ l, get_documents gw (pyTruthy category) limit = .ok l →
        list_products gw category limit = l) ∧
    (get_documents gw (pyTruthy category) limit = .error () →
        list_products gw category limit = pySlice limit (seedsFiltered category)) := by
  constructor
  · intro l hl
    unfold list_products
    rw [hl, show (serialize_doc : ProductDoc → ProductDoc) = id from rfl]
    exact List.map_id l
  · intro hl
    unfold list_products
    rw [hl]

theorem c8_fallback_on_exception_witness :
    list_products ⟨some [], none, none⟩ none 3 = [] ∧
    list_products ⟨none, none, none⟩ none 3 = pySlice 3 (seedsFiltered none) :=
  ⟨(c8_fallback_on_exception ⟨some [], none, none⟩ none 3).1 [] (by decide),
   (c8_fallback_on_exception ⟨none, none, none⟩ none 3).2 (by decide)⟩

/-- C6 counterexample: the empty string is not the category of any of the
4 seeded products, yet `list_products` in fallback mode with
`category = ""` returns the whole seeded catalogue (Python truthiness
skips the filter), not the empty sequence the claim requires. -/
theorem c6_counterexample :
    seedCatalogue.filter (fun s => s.category == some "") = [] ∧
    list_products ⟨none, none, none⟩ (some "") 50 = seedCatalogue ∧
    seedCatalogue ≠ [] := by decide

/-- C6 (amended): for every NON-EMPTY category string that is not the
category of any of the 4 seeded fallback products, `list_products` in
fallback mode (gateway raising) returns an empty sequence. -/
theorem c6_amended_unknown_category_empty (gw : Gateway) (c : String)
    (limit : ℤ) (hq : gw.query = none) (hc : c ≠ "")
    (hcat : ∀ s ∈ seedCatalogue, ¬ s.category = some c) :
    list_products gw (some c) limit = [] := by
  unfold list_products get_documents
  rw [hq]
  have hfilt : seedCatalogue.filter (fun s => s.category == some c) = [] := by
    rw [List.filter_eq_nil_iff]
    intro a ha
    simpa using hcat a ha
  simp [seedsFiltered, pyTruthy, hc, hfilt, pySlice_nil]

theorem c6_amended_witness :
    list_products ⟨none, none, none⟩ (some "Hats") 50 = [] :=
  c6_amended_unknown_category_empty ⟨none, none, none⟩ "Hats" 50 rfl
    (by decide) (by decide)

/-! ## Claim theorems: checkout service -/

/-- C1: for every checkout request that completes, the returned subtotal
is `round(Σ price·quantity, 2)` over the resolved order items, shipping
is 0 when that sum is ≥ 100 and 6.0 otherwise, and the returned total is
`round(subtotal + shipping, 2)` (both for the raw sum and for the
returned, rounded subtotal — the two coincide because shipping is an
exact multiple of 0.01). -/
theorem c1_checkout_totals (gw : Gateway) (p : CheckoutRequest)
    (r : Receipt) (h : checkout gw p = .ok r) :
    ∃ ids its, parseIds p.items = .ok ids ∧
      priceItems gw (prodMapOf gw ids) p.items = .ok its ∧
      r.subtotal = pyRound2 (lineSum its) ∧
      r.shipping = (if 100 ≤ lineSum its then (0 : ℚ) else 6) ∧
      r.total = pyRound2 (lineSum its + r.shipping) ∧
      r.total = pyRound2 (r.subtotal + r.shipping) := by
  unfold checkout at h
  cases h1 : parseIds p.items with
  | error e => rw [h1] at h; cases h
  | ok ids =>
      rw [h1] at h
      simp only [] at h
      cases h2 : priceItems gw (prodMapOf gw ids) p.items with
      | error e => rw [h2] at h; cases h
      | ok its =>
          rw [h2] at h
          simp only [] at h
          refine ⟨ids, its, rfl, ?_⟩
          split at h
          · cases h
            refine ⟨h2, ?_, ?_, ?_, ?_⟩
            · simp [orderOf]
            · simp [orderOf, orderShipping]
            · simp [orderOf, orderShipping]
            · simp only [orderOf, orderShipping]
              apply pyRound2_pre_rounded
              split
              · exact Or.inl rfl
              · exact Or.inr rfl
          · cases h

theorem c1_checkout_totals_witness :
    checkout ⟨none, none, none⟩
        { items := [⟨"seed-0", 2⟩], customer_name := "Ada",
          customer_email := "ada@example.com", address_line1 := "1 Main St",
          city := "Springfield", state := "IL", postal_code := "62701" } =
      .ok ⟨none, 118, 0, 118⟩ ∧
    (∃ ids its, parseIds [(⟨"seed-0", 2⟩ : CartItem)] = .ok ids ∧
      priceItems ⟨none, none, none⟩ (prodMapOf ⟨none, none, none⟩ ids)
          [(⟨"seed-0", 2⟩ : CartItem)] = .ok its ∧
      (118 : ℚ) = pyRound2 (lineSum its) ∧
      (0 : ℚ) = (if 100 ≤ lineSum its then (0 : ℚ) else 6) ∧
      (118 : ℚ) = pyRound2 (lineSum its + 0) ∧
      (118 : ℚ) = pyRound2 (118 + 0)) := by
  have h1 : parseIds [(⟨"seed-0", 2⟩ : CartItem)] = .ok [] := by decide
  have h2 : priceItems ⟨none, none, none⟩ (prodMapOf ⟨none, none, none⟩ [])
      [(⟨"seed-0", 2⟩ : CartItem)] =
      .ok [⟨"seed-0", "Luna Halo Ring", 59, 2,
            some "https://images.unsplash.com/photo-1520962918287-7448c2878f65?q=80&w=1200&auto=format&fit=crop"⟩] := by
    decide
  have hchk : checkout ⟨none, none, none⟩
      { items := [⟨"seed-0", 2⟩], customer_name := "Ada",
        customer_email := "ada@example.com", address_line1 := "1 Main St",
        city := "Springfield", state := "IL", postal_code := "62701" } =
      .ok ⟨none, 118, 0, 118⟩ := by
    simp only [checkout, h1, h2]
    norm_num [lineSum, orderValid, orderOf, orderShipping, pyRound2,
      pyRound2Int]
  exact ⟨hchk, c1_checkout_totals _ _ _ hchk⟩

lemma list_products_createOrder (q c : Option (List ProductDoc))
    (o o' : Option String) (cat : Option String) (lim : ℤ) :
    list_products ⟨q, c, o⟩ cat lim = list_products ⟨q, c, o'⟩ cat lim := rfl

lemma prodMapOf_createOrder (q c : Option (List ProductDoc))
    (o o' : Option String) (ids : List String) :
    prodMapOf ⟨q, c, o⟩ ids = prodMapOf ⟨q, c, o'⟩ ids := rfl

lemma seedLookup_createOrder (q c : Option (List ProductDoc))
    (o o' : Option String) (pid : String) :
    seedLookup ⟨q, c, o⟩ pid = seedLookup ⟨q, c, o'⟩ pid := rfl

lemma resolveItem_createOrder (q c : Option (List ProductDoc))
    (o o' : Option String) (pm : List ProductDoc) (ci : CartItem) :
    resolveItem ⟨q, c, o⟩ pm ci = resolveItem ⟨q, c, o'⟩ pm ci := by
  unfold resolveItem
  rw [seedLookup_createOrder q c o o' ci.product_id]

lemma priceItems_createOrder (q c : Option (List ProductDoc))
    (o o' : Option String) (pm : List ProductDoc) :
    ∀ items, priceItems ⟨q, c, o⟩ pm items = priceItems ⟨q, c, o'⟩ pm items
  | [] => rfl
  | ci :: rest => by
      unfold priceItems
      rw [resolveItem_createOrder q c o o' pm ci,
        priceItems_createOrder q c o o' pm rest]

/-- C5: if persisting the Order fails (`create_document` raises), the
checkout request behaves exactly as otherwise except that the returned
`order_id` is null — same success/failure, same subtotal, shipping and
total. -/
theorem c5_persistence_failure (gw : Gateway) (p : CheckoutRequest) :
    checkout { gw with createOrder := none } p =
      (checkout gw p).map (fun r => { r with order_id := none }) := by
  obtain ⟨q, c, o⟩ := gw
  show checkout ⟨q, c, none⟩ p =
    (checkout ⟨q, c, o⟩ p).map (fun r => { r with order_id := none })
  unfold checkout
  cases h1 : parseIds p.items with
  | error e => rfl
  | ok ids =>
      simp only [h1]
      rw [prodMapOf_createOrder q c none o ids,
        priceItems_createOrder q c none o (prodMapOf ⟨q, c, o⟩ ids) p.items]
      cases h2 : priceItems ⟨q, c, o⟩ (prodMapOf ⟨q, c, o⟩ ids) p.items with
      | error e => rfl
      | ok its =>
          simp only [h2]
          split <;> rfl

lemma parseIds_eq_ok : ∀ items : List CartItem,
    (∀ ci ∈ items, ci.product_id.length = 24 → isHexStr ci.product_id = true) →
    parseIds items = .ok (parseIdsHex items)
  | [], _ => rfl
  | ci :: rest, h => by
      have hrest := parseIds_eq_ok rest
        (fun c hc hl => h c (List.mem_cons_of_mem _ hc) hl)
      by_cases hl : ci.product_id.length = 24
      · have hx : isHexStr ci.product_id = true :=
          h ci (List.mem_cons_self _ _) hl
        simp [parseIds, parseIdsHex, List.filterMap_cons, hl, hx, hrest]
      · simp [parseIds, parseIdsHex, List.filterMap_cons, hl, hrest]

lemma priceItems_default (gw : Gateway) (pm : List ProductDoc) :
    ∀ items : List CartItem,
    (∀ ci ∈ items, prodGet pm ci.product_id = none) →
    (∀ ci ∈ items, seedLookup gw ci.product_id = none) →
    priceItems gw pm items = .ok (defaultItems items)
  | [], _, _ => rfl
  | ci :: rest, hg, hs => by
      have h1 : prodGet pm ci.product_id = none :=
        hg ci (List.mem_cons_self _ _)
      have h2 : seedLookup gw ci.product_id = none :=
        hs ci (List.mem_cons_self _ _)
      have hrest := priceItems_default gw pm rest
        (fun c hc => hg c (List.mem_cons_of_mem _ hc))
        (fun c hc => hs c (List.mem_cons_of_mem _ hc))
      simp [priceItems, resolveItem, h1, h2, seedImage, seedTitle, seedPrice,
        hrest, defaultItems, defaultItem]

lemma lineSum_nil : lineSum [] = 0 := rfl

lemma lineSum_cons (it : OrderItem) (its : List OrderItem) :
    lineSum (it :: its) = it.price * (it.quantity : ℚ) + lineSum its := by
  unfold lineSum
  simp

lemma lineSum_default_nonneg : ∀ items : List CartItem,
    (∀ ci ∈ items, 1 ≤ ci.quantity) → 0 ≤ lineSum (defaultItems items)
  | [], _ => le_refl 0
  | ci :: rest, h => by
      have hq : 1 ≤ ci.quantity := h ci (List.mem_cons_self _ _)
      have hrest := lineSum_default_nonneg rest
        (fun c hc => h c (List.mem_cons_of_mem _ hc))
      have hq' : (1 : ℚ) ≤ (ci.quantity : ℚ) := by exact_mod_cast hq
      have hterm : (0 : ℚ) ≤ 50 * (ci.quantity : ℚ) := by nlinarith
      simp only [defaultItems, List.map_cons, lineSum_cons] at *
      simp only [defaultItem] at *
      linarith

lemma orderShipping_nonneg (its : List OrderItem) : 0 ≤ orderShipping its := by
  unfold orderShipping
  split <;> norm_num

lemma orderValid_default (p : CheckoutRequest) (items : List CartItem)
    (hq : ∀ ci ∈ items, 1 ≤ ci.quantity) :
    orderValid (orderOf p (defaultItems items)) = true := by
  have hS : 0 ≤ lineSum (defaultItems items) := lineSum_default_nonneg items hq
  have hsub : 0 ≤ pyRound2 (lineSum (defaultItems items)) :=
    pyRound2_nonneg _ hS
  have hship := orderShipping_nonneg (defaultItems items)
  have htot : 0 ≤ pyRound2
      (lineSum (defaultItems items) + orderShipping (defaultItems items)) :=
    pyRound2_nonneg _ (by linarith)
  unfold orderValid orderOf
  simp only [Bool.and_eq_true, List.all_eq_true, decide_eq_true_eq]
  refine ⟨⟨⟨?_, hsub⟩, hship⟩, htot⟩
  intro x hx
  obtain ⟨ci, hci, rfl⟩ := List.mem_map.mp hx
  exact hq ci hci

/-- C2 counterexample: the 24-character id "zzzzzzzzzzzzzzzzzzzzzzzz"
resolves to no gateway record (the batch lookup raises) and to no seeded
product, yet the checkout request does not succeed with default pricing:
`ObjectId(...)` at src/main.py line 142 runs outside every `try` block and
raises `InvalidId` (an HTTP 500), so no receipt is returned. -/
theorem c2_counterexample :
    seedLookup ⟨none, none, none⟩ "zzzzzzzzzzzzzzzzzzzzzzzz" = none ∧
    checkout ⟨none, none, none⟩
        { items := [⟨"zzzzzzzzzzzzzzzzzzzzzzzz", 1⟩], customer_name := "Bo",
          customer_email := "bo@example.com", address_line1 := "2 Side St",
          city := "Salem", state := "OR", postal_code := "97301" } =
      .error .invalidId := by decide

/-- C2 (amended): for every checkout request whose 24-character product
ids are all valid hex (so `ObjectId` parsing cannot raise), whose item
quantities are all ≥ 1 (so `Order` validation cannot reject), and whose
product ids resolve to no batch-resolved gateway record and to no record
in the fallback search, the request succeeds, pricing every item with
default price 50.0, title "Jewellery Piece" and no image. -/
theorem c2_amended_unresolvable_defaults (gw : Gateway)
    (p : CheckoutRequest)
    (hparse : ∀ ci ∈ p.items,
      ci.product_id.length = 24 → isHexStr ci.product_id = true)
    (hgw : ∀ ci ∈ p.items,
      prodGet (prodMapOf gw (parseIdsHex p.items)) ci.product_id = none)
    (hseed : ∀ ci ∈ p.items, seedLookup gw ci.product_id = none)
    (hq : ∀ ci ∈ p.items, 1 ≤ ci.quantity) :
    priceItems gw (prodMapOf gw (parseIdsHex p.items)) p.items =
      .ok (defaultItems p.items) ∧
    checkout gw p =
      .ok { order_id := gw.createOrder,
            subtotal := pyRound2 (lineSum (defaultItems p.items)),
            shipping := orderShipping (defaultItems p.items),
            total := pyRound2 (lineSum (defaultItems p.items) +
              orderShipping (defaultItems p.items)) } := by
  have hpi := priceItems_default gw (prodMapOf gw (parseIdsHex p.items))
    p.items hgw hseed
  refine ⟨hpi, ?_⟩
  unfold checkout
  rw [parseIds_eq_ok p.items hparse]
  simp only [hpi, orderValid_default p p.items hq, if_true]
  simp [orderOf]

theorem c2_amended_witness :
    priceItems ⟨none, none, none⟩
        (prodMapOf ⟨none, none, none⟩
          (parseIdsHex [(⟨"unknown-1", 2⟩ : CartItem)]))
        [(⟨"unknown-1", 2⟩ : CartItem)] =
      .ok (defaultItems [(⟨"unknown-1", 2⟩ : CartItem)]) ∧
    checkout ⟨none, none, none⟩
        { items := [⟨"unknown-1", 2⟩], customer_name := "Cy",
          customer_email := "cy@example.com", address_line1 := "3 High St",
          city := "Reno", state := "NV", postal_code := "89501" } =
      .ok { order_id := none,
            subtotal := pyRound2
              (lineSum (defaultItems [(⟨"unknown-1", 2⟩ : CartItem)])),
            shipping := orderShipping
              (defaultItems [(⟨"unknown-1", 2⟩ : CartItem)]),
            total := pyRound2
              (lineSum (defaultItems [(⟨"unknown-1", 2⟩ : CartItem)]) +
                orderShipping
                  (defaultItems [(⟨"unknown-1", 2⟩ : CartItem)])) } :=
  c2_amended_unresolvable_defaults ⟨none, none, none⟩
    { items := [⟨"unknown-1", 2⟩], customer_name := "Cy",
      customer_email := "cy@example.com", address_line1 := "3 High St",
      city := "Reno", state := "NV", postal_code := "89501" }
    (by decide) (by decide) (by decide) (by decide)

/-- C3 counterexample: with the gateway listing succeeding (here with an
empty catalogue) and no batch-resolved record, the item "seed-0" is NOT
priced from the fixed fallback seeded catalogue (price 59.0, title "Luna
Halo Ring") as the claim requires, but from the hardcoded default: the
fallback step of src/main.py line 165 scans `list_products()`, which only
equals the seeded catalogue when the gateway listing raises. -/
theorem c3_counterexample :
    resolveItem ⟨some [], none, none⟩ [] ⟨"seed-0", 1⟩ =
      .ok { product_id := "seed-0", title := "Jewellery Piece", price := 50,
            quantity := 1, image := none } ∧
    resolveClaimed [] ⟨"seed-0", 1⟩ =
      .ok { product_id := "seed-0", title := "Luna Halo Ring", price := 59,
            quantity := 1,
            image := some "https://images.unsplash.com/photo-1520962918287-7448c2878f65?q=80&w=1200&auto=format&fit=crop" } ∧
    resolveItem ⟨some [], none, none⟩ [] ⟨"seed-0", 1⟩ ≠
      resolveClaimed [] ⟨"seed-0", 1⟩ := by decide

/-- C3 (amended): per-item resolution precedence is (a) the
batch-resolved gateway record, else (b) the record with that id in the
output of `list_products()` with no filter, else (c) the hardcoded
default (price 50.0, title "Jewellery Piece", no image); and the
`list_products()` output searched in step (b) equals the fixed fallback
seeded catalogue exactly when the gateway listing raises. -/
theorem c3_amended_precedence (gw : Gateway) (pm : List ProductDoc)
    (ci : CartItem) :
    resolveItem gw pm ci = resolveAmendedSpec gw pm ci ∧
    (gw.query = none → list_products gw = seedCatalogue) := by
  constructor
  · unfold resolveItem resolveAmendedSpec
    cases hpg : prodGet pm ci.product_id with
    | some base => rfl
    | none =>
        cases hf : seedLookup gw ci.product_id with
        | none => simp [seedImage, seedTitle, seedPrice, hf]
        | some s =>
            cases hs : s.images with
            | none => simp [seedImage, seedTitle, seedPrice, hf, hs]
            | some l =>
                cases l with
                | nil => simp [seedImage, hf, hs]
                | cons u t => simp [seedImage, seedTitle, seedPrice, hf, hs]
  · intro hq
    obtain ⟨q, c, o⟩ := gw
    cases hq
    rfl

theorem c3_amended_witness :
    resolveItem ⟨none, none, none⟩ [] ⟨"seed-0", 1⟩ =
      resolveAmendedSpec ⟨none, none, none⟩ [] ⟨"seed-0", 1⟩ ∧
    list_products ⟨none, none, none⟩ = seedCatalogue :=
  ⟨(c3_amended_precedence ⟨none, none, none⟩ [] ⟨"seed-0", 1⟩).1,
   (c3_amended_precedence ⟨none, none, none⟩ [] ⟨"seed-0", 1⟩).2 rfl⟩

lemma resolveItem_quantity (gw : Gateway) (pm : List ProductDoc)
    (ci : CartItem) (it : OrderItem)
    (h : resolveItem gw pm ci = .ok it) : it.quantity = ci.quantity := by
  unfold resolveItem at h
  split at h
  · cases h; rfl
  · split at h
    · cases h
    · cases h; rfl

lemma priceItems_quantities (gw : Gateway) (pm : List ProductDoc) :
    ∀ (items : List CartItem) (its : List OrderItem),
    priceItems gw pm items = .ok its →
    its.map (fun it => it.quantity) = items.map (fun ci => ci.quantity)
  | [], its, h => by cases h; rfl
  | ci :: rest, its, h => by
      unfold priceItems at h
      cases hr : resolveItem gw pm ci with
      | error e => rw [hr] at h; cases h
      | ok it =>
          rw [hr] at h
          cases hp : priceItems gw pm rest with
          | error e => rw [hp] at h; cases h
          | ok its' =>
              rw [hp] at h
              cases h
              simp [resolveItem_quantity gw pm ci it hr,
                priceItems_quantities gw pm rest its' hp]

/-- C10 counterexample: a payload whose single item has quantity 0 and a
24-character non-hex product id passes inbound payload validation, but
the request does not fail at `Order` construction as the claim states: it
fails earlier, at `ObjectId(...)` parsing (src/main.py line 142), with
`InvalidId` rather than `ValidationError`. -/
theorem c10_counterexample :
    checkoutRequestValid
        { items := [⟨"ZZZZZZZZZZZZZZZZZZZZZZZZ", 0⟩], customer_name := "Di",
          customer_email := "di@example.com", address_line1 := "4 Low St",
          city := "Provo", state := "UT", postal_code := "84601" } = true ∧
    checkout ⟨none, none, none⟩
        { items := [⟨"ZZZZZZZZZZZZZZZZZZZZZZZZ", 0⟩], customer_name := "Di",
          customer_email := "di@example.com", address_line1 := "4 Low St",
          city := "Provo", state := "UT", postal_code := "84601" } =
      .error .invalidId ∧
    Err.invalidId ≠ Err.validationError := by decide

/-- C10 (amended): the checkout payload model places no lower bound on
item quantity, so a payload with some quantity ≤ 0 passes inbound
validation; provided its 24-character ids are valid hex (otherwise
`ObjectId` parsing raises first) and per-item pricing completes, the
request then fails when the `Order` record is constructed, because
`OrderItem` requires quantity ≥ 1. -/
theorem c10_amended_quantity_validation (gw : Gateway)
    (p : CheckoutRequest) (its : List OrderItem)
    (hparse : ∀ ci ∈ p.items,
      ci.product_id.length = 24 → isHexStr ci.product_id = true)
    (hpi : priceItems gw (prodMapOf gw (parseIdsHex p.items)) p.items =
      .ok its)
    (hbad : ∃ ci ∈ p.items, ci.quantity ≤ 0) :
    checkoutRequestValid p = true ∧
    checkout gw p = .error .validationError := by
  refine ⟨rfl, ?_⟩
  obtain ⟨ci, hci, hq⟩ := hbad
  have hmap := priceItems_quantities gw (prodMapOf gw (parseIdsHex p.items))
    p.items its hpi
  have hmem : ci.quantity ∈ its.map (fun it => it.quantity) := by
    rw [hmap]
    exact List.mem_map_of_mem _ hci
  obtain ⟨it, hit, hq'⟩ := List.mem_map.mp hmem
  have hv : orderValid (orderOf p its) = false := by
    cases hvv : orderValid (orderOf p its) with
    | false => rfl
    | true =>
        exfalso
        unfold orderValid orderOf at hvv
        simp only [Bool.and_eq_true, List.all_eq_true, decide_eq_true_eq]
          at hvv
        have h1 := hvv.1.1.1 it hit
        omega
  unfold checkout
  rw [parseIds_eq_ok p.items hparse]
  simp only [hpi, hv]
  simp

theorem c10_amended_witness :
    checkoutRequestValid
        { items := [⟨"u", 0⟩], customer_name := "Ed",
          customer_email := "ed@example.com", address_line1 := "5 End St",
          city := "Waco", state := "TX", postal_code := "76701" } = true ∧
    checkout ⟨none, none, none⟩
        { items := [⟨"u", 0⟩], customer_name := "Ed",
          customer_email := "ed@example.com", address_line1 := "5 End St",
          city := "Waco", state := "TX", postal_code := "76701" } =
      .error .validationError :=
  c10_amended_quantity_validation ⟨none, none, none⟩
    { items := [⟨"u", 0⟩], customer_name := "Ed",
      customer_email := "ed@example.com", address_line1 := "5 End St",
      city := "Waco", state := "TX", postal_code := "76701" }
    [{ product_id := "u", title := "Jewellery Piece", price := 50,
       quantity := 0, image := none }]
    (by decide) (by decide) (by decide)

end Jewellery
